import Mathlib

/-!
Verification of the WebDAV multistatus decoding core of `remotefs-rs-webdav`.

The development shallowly embeds the decoding pipeline: the generic XML value
tree (`Value`/`ValueMap`), the typed elements (`Multistatus`, `Response`,
`Propstat`, `Status`, `Href`, `Properties`), the status interpreter and the
response-to-file reducer of `src/parser.rs`, and the post-processing done by
`WebDAVFs::list_dir` / `stat` / `exists` in `src/lib.rs`.

Code present in the repository sources (`src/parser.rs`, `src/lib.rs`,
`src/webdav_xml/elements/multistatus.rs`, `prop.rs`) is translated directly.
The files `value.rs`, `status.rs`, `response.rs`, `propstat.rs`, `href.rs`,
`responsedescription.rs` and the property decoders are part of the repository
but not among the provided sources; their definitions are modelled from the
specification and marked `Modelled from the spec:` in their doc comments.

The local-filesystem lookup `PathBuf::is_dir()` performed by the reducer is
embedded as an explicit oracle `isDir : String → Bool` describing the state of
the client machine's filesystem, and the external XML tokenizer
(`parse_xml(bytes) -> Value | Error`) as an explicit function parameter.
-/

/-- A qualified XML name: namespace URI plus local name (spec section 3,
"Element identity"). -/
structure QName where
  ns : String
  localName : String
deriving DecidableEq

/-- Shorthand for names in the `DAV:` namespace. -/
def davQ (n : String) : QName := ⟨"DAV:", n⟩

/-- Modelled from the spec: `webdav_xml/value.rs` is not in src/. The generic
structural representation of decoded XML content (spec section 3): an element
is empty, scalar text, a map of named children, or a list collapsing repeated
siblings. -/
inductive Value where
  | empty : Value
  | text : String → Value
  | map : List (QName × Value) → Value
  | list : List Value → Value

/-- Ordered multi-map from qualified names to values (spec section 3). -/
abbrev ValueMap := List (QName × Value)

/-- Decode errors of the typed-element layer. The constructors distinguish the
failure kinds named by the spec (shape mismatch, malformed status line,
malformed integer); their identity never influences control flow beyond
being an error. -/
inductive DErr where
  | notAMap
  | notText
  | missingChild
  | badStatusLine
  | badInteger
deriving DecidableEq

/-- First-match association lookup in a `ValueMap` (spec section 3: a key
occurs at most once, repetitions having been merged into a single entry). -/
def ValueMap.lookup (q : QName) : ValueMap → Option Value
  | [] => none
  | (k, v) :: rest => if k = q then some v else ValueMap.lookup q rest

/-- Modelled from the spec: merging used by `ValueMap::insert` (spec section
3): a second occurrence of a key turns the entry into a list, further
occurrences append in document order. -/
def mergeVal (w v : Value) : Value :=
  match w with
  | Value.list l => Value.list (l ++ [v])
  | w => Value.list [w, v]

/-- Modelled from the spec: append-only insertion into a `ValueMap`
(spec section 3): a fresh key is appended, an existing key has the new value
merged into a list rather than overwritten. -/
def ValueMap.insert (q : QName) (v : Value) : ValueMap → ValueMap
  | [] => [(q, v)]
  | (k, w) :: rest =>
      if k = q then (k, mergeVal w v) :: rest
      else (k, w) :: ValueMap.insert q v rest

/-- Conversion of a `Value` to its map of children; any other shape is a
decode error (`value.rs::to_map`, modelled from the spec). -/
def Value.toMap : Value → Except DErr ValueMap
  | Value.map m => Except.ok m
  | _ => Except.error DErr.notAMap

/-- The error kinds of the `remotefs` crate used by this client
(`RemoteErrorType`). -/
inductive RemoteErrorType where
  | AuthenticationFailed
  | CouldNotOpenFile
  | NoSuchFileOrDirectory
  | ProtocolError
  | IoError
  | DirectoryAlreadyExists
  | UnsupportedFeature
deriving DecidableEq

/-- File-vs-directory classification of a produced record (`remotefs`
`FileType`). -/
inductive FileType where
  | Directory
  | File
  | Symlink
deriving DecidableEq

/-- The metadata carried by a produced file record; timestamps are carried as
the raw decoded strings. `Metadata::default()` is all-empty: no timestamps,
size 0. -/
structure Metadata where
  created : Option String
  modified : Option String
  size : Nat
  file_type : FileType
deriving DecidableEq

/-- The default metadata used as the starting point of every record
(`Metadata::default()` in `parse_propfind`). -/
def Metadata.default : Metadata :=
  { created := none, modified := none, size := 0, file_type := FileType.File }

/-- A produced remote file record: server-supplied path plus metadata
(`remotefs::File` as constructed by `parse_propfind`). -/
structure File where
  path : String
  metadata : Metadata
deriving DecidableEq

/-- Modelled from the spec: `status.rs` is not in src/. `Status` wraps an HTTP
status line: protocol version, numeric code, reason phrase (spec sections 3
and 4.4). -/
structure Status where
  version : String
  code : Nat
  reason : String
deriving DecidableEq

/-- Modelled from the spec: `href.rs` is not in src/. `Href` is a pass-through
wrapper around the server-supplied path string, no normalization
(spec section 4.4). -/
structure Href where
  s : String
deriving DecidableEq

/-- Properties: a `ValueMap` scoped to the children of one `prop` element
(`prop.rs`). -/
structure Properties where
  map : ValueMap

/-- Modelled from the spec: `creationdate.rs` is not in src/. `creationdate`
decodes scalar text as an RFC3339 timestamp (spec section 4.3); the timestamp
grammar is abstracted here: the raw string is carried as the value, and
non-text shapes fail to decode, the same error state through which malformed
dates surface in the code. -/
structure CreationDate where
  date : String
deriving DecidableEq

/-- Modelled from the spec: `getlastmodified.rs` is not in src/. Decodes
scalar text as an HTTP-date (spec section 4.3); the date grammar is abstracted
exactly as for `CreationDate`. -/
structure LastModified where
  date : String
deriving DecidableEq

/-- Modelled from the spec: `getcontentlength.rs` is not in src/. Decodes
scalar text as a non-negative integer (spec section 4.3). -/
structure ContentLength where
  length : Nat
deriving DecidableEq

/-- Modelled from the spec: `propstat.rs` is not in src/. A `propstat` block:
a property set plus the status that applied to retrieving it
(spec section 3). -/
structure Propstat where
  prop : Properties
  status : Status
  responsedescription : Option String

/-- Modelled from the spec: `response.rs` is not in src/. A `response` entry is
either propstat-bearing or status-only, distinguished by which children are
present (spec section 3). -/
inductive Response where
  | propstat (href : Href) (propstat : List Propstat)
      (responsedescription : Option String)
  | status (href : Href) (status : Status)
      (responsedescription : Option String)

/-- The `multistatus` document: a list of responses plus an optional
response description (`multistatus.rs`). -/
structure Multistatus where
  response : List Response
  responsedescription : Option String

/- ## Status-line text: tokenization and digits

Modelled from the spec (section 4.4): a status line is text of the form
`HTTP/<version> <code> <reason>`; decoding fails if the three tokens are not
present or the code is not a 3-digit integer. Tokenization is embedded at the
character level. -/

/-- Splits a character list at every space; inverse of `joinSp`. -/
def splitSp : List Char → List (List Char)
  | [] => [[]]
  | c :: rest =>
      if c = ' ' then [] :: splitSp rest
      else
        match splitSp rest with
        | [] => [[c]]
        | w :: ws => (c :: w) :: ws

/-- Rejoins space-separated tokens. -/
def joinSp : List (List Char) → List Char
  | [] => []
  | [w] => w
  | w :: ws => w ++ ' ' :: joinSp ws

/-- The character of a decimal digit. -/
def digitChar (d : Nat) : Char := Char.ofNat (48 + d)

/-- The value of a decimal digit character. -/
def digitVal (c : Char) : Nat := c.toNat - 48

/-- Whether a character is a decimal digit. -/
def isDigitChar (c : Char) : Bool := 48 ≤ c.toNat && c.toNat ≤ 57

/-- Prints a 3-digit status code. -/
def print3 (n : Nat) : List Char :=
  [digitChar (n / 100), digitChar (n / 10 % 10), digitChar (n % 10)]

/-- Parses exactly three decimal digits into a status code. -/
def parse3 : List Char → Option Nat
  | [a, b, c] =>
      if isDigitChar a && isDigitChar b && isDigitChar c then
        some (100 * digitVal a + 10 * digitVal b + digitVal c)
      else none
  | _ => none

/-- Recognises the first status-line token `HTTP/<version>` and returns the
version characters. -/
def parseHttpToken : List Char → Option (List Char)
  | 'H' :: 'T' :: 'T' :: 'P' :: '/' :: ver => some ver
  | _ => none

/-- Modelled from the spec: renders a `Status` as its status-line text
`HTTP/<version> <code> <reason>` (spec section 4.4). -/
def statusToText (st : Status) : String :=
  ⟨('H' :: 'T' :: 'T' :: 'P' :: '/' :: st.version.data) ++
    ' ' :: (print3 st.code ++ ' ' :: st.reason.data)⟩

/-- Modelled from the spec: parses a status-line text; decode failure if the
three tokens are not present or the code is not a 3-digit integer
(spec section 4.4). -/
def statusFromText (s : String) : Except DErr Status :=
  match splitSp s.data with
  | t1 :: t2 :: r :: rs =>
      match parseHttpToken t1, parse3 t2 with
      | some ver, some n =>
          Except.ok { version := ⟨ver⟩, code := n, reason := ⟨joinSp (r :: rs)⟩ }
      | _, _ => Except.error DErr.badStatusLine
  | _ => Except.error DErr.badStatusLine

/- ## Typed decoding: properties and elements -/

/-- Modelled from the spec: `ValueMap::get::<T>()` three-state access
(spec section 4.1): `none` when the key is absent, `some none` when the child
exists but is empty, `some (some result)` carrying the decode outcome
otherwise. -/
def getOptional (q : QName) (dec : Value → Except DErr α) (m : ValueMap) :
    Option (Option (Except DErr α)) :=
  match ValueMap.lookup q m with
  | none => none
  | some Value.empty => some none
  | some v => some (some (dec v))

/-- Decoder for `creationdate` content (grammar abstracted, see
`CreationDate`). -/
def creationDateTryFrom : Value → Except DErr CreationDate
  | Value.text s => Except.ok ⟨s⟩
  | _ => Except.error DErr.notText

/-- Decoder for `getlastmodified` content (grammar abstracted, see
`LastModified`). -/
def lastModifiedTryFrom : Value → Except DErr LastModified
  | Value.text s => Except.ok ⟨s⟩
  | _ => Except.error DErr.notText

/-- Parses a non-empty all-digit character sequence as a non-negative decimal
integer; anything else is rejected. -/
def parseNat (cs : List Char) : Option Nat :=
  match cs with
  | [] => none
  | _ =>
      if cs.all isDigitChar then
        some (cs.foldl (fun acc c => 10 * acc + digitVal c) 0)
      else none

/-- Decoder for `getcontentlength` content: scalar text holding a
non-negative integer (spec section 4.3, failure kind "malformed
integer"). -/
def contentLengthTryFrom : Value → Except DErr ContentLength
  | Value.text s =>
      match parseNat s.data with
      | some n => Except.ok ⟨n⟩
      | none => Except.error DErr.badInteger
  | _ => Except.error DErr.notText

/-- Read the `creationdate` property (`prop.rs::creationdate`). -/
def Properties.creationdate (p : Properties) :
    Option (Option (Except DErr CreationDate)) :=
  getOptional (davQ "creationdate") creationDateTryFrom p.map

/-- Read the `getlastmodified` property (`prop.rs::getlastmodified`). -/
def Properties.getlastmodified (p : Properties) :
    Option (Option (Except DErr LastModified)) :=
  getOptional (davQ "getlastmodified") lastModifiedTryFrom p.map

/-- Read the `getcontentlength` property (`prop.rs::getcontentlength`). -/
def Properties.getcontentlength (p : Properties) :
    Option (Option (Except DErr ContentLength)) :=
  getOptional (davQ "getcontentlength") contentLengthTryFrom p.map

/-- Decoder for a `prop` element: its map of children, wrapped
(`prop.rs`, `TryFrom<&Value> for Properties`). -/
def propertiesTryFrom (v : Value) : Except DErr Properties :=
  (Value.toMap v).map (fun m => ⟨m⟩)

/-- Optional `responsedescription` child of a map: absent is fine, text
decodes, any other shape is an error (`responsedescription.rs` modelled from
the spec as a free-text wrapper). -/
def rdTryFromMap (m : ValueMap) : Except DErr (Option String) :=
  match ValueMap.lookup (davQ "responsedescription") m with
  | none => Except.ok none
  | some (Value.text s) => Except.ok (some s)
  | some _ => Except.error DErr.notText

/-- Modelled from the spec: decoder for a `propstat` element: required `prop`
and `status` children, optional `responsedescription` (spec sections 3
and 4.4). -/
def propstatTryFrom (v : Value) : Except DErr Propstat := do
  let m ← Value.toMap v
  let prop ←
    match ValueMap.lookup (davQ "prop") m with
    | some pv => propertiesTryFrom pv
    | none => Except.error DErr.missingChild
  let st ←
    match ValueMap.lookup (davQ "status") m with
    | some (Value.text s) => statusFromText s
    | some _ => Except.error DErr.notText
    | none => Except.error DErr.missingChild
  let rd ← rdTryFromMap m
  Except.ok { prop := prop, status := st, responsedescription := rd }

/-- Decodes the value found under the `propstat` key: a list yields one
propstat per item in document order, a single value yields one propstat
(spec section 3: repeated children are aggregated into a list). -/
def propstatListTryFrom : List Value → Except DErr (List Propstat)
  | [] => Except.ok []
  | v :: rest => do
      let p ← propstatTryFrom v
      let ps ← propstatListTryFrom rest
      Except.ok (p :: ps)

/-- Dispatches on the shape stored under the `propstat` key. -/
def decodePropstatMulti : Value → Except DErr (List Propstat)
  | Value.list items => propstatListTryFrom items
  | v => (propstatTryFrom v).map (fun p => [p])

/-- Modelled from the spec: decoder for a `response` element
(spec section 4.4): a required `href`, then either a propstat-bearing shape or
a status-only shape according to which children are present; any other shape
is a decode failure. -/
def responseTryFrom (v : Value) : Except DErr Response := do
  let m ← Value.toMap v
  let href ←
    match ValueMap.lookup (davQ "href") m with
    | some (Value.text s) => Except.ok (Href.mk s)
    | some _ => Except.error DErr.notText
    | none => Except.error DErr.missingChild
  match ValueMap.lookup (davQ "propstat") m with
  | some pv => do
      let ps ← decodePropstatMulti pv
      let rd ← rdTryFromMap m
      Except.ok (Response.propstat href ps rd)
  | none =>
      match ValueMap.lookup (davQ "status") m with
      | some (Value.text s) => do
          let st ← statusFromText s
          let rd ← rdTryFromMap m
          Except.ok (Response.status href st rd)
      | some _ => Except.error DErr.notText
      | none => Except.error DErr.missingChild

/-- List part of `iter_response_items` (`multistatus.rs` lines 31-48): a
nested list recurses, any other item is decoded as a response. -/
def iterItems : List Value → Except DErr (List Response)
  | [] => Except.ok []
  | Value.list inner :: rest => do
      let a ← iterItems inner
      let b ← iterItems rest
      Except.ok (a ++ b)
  | Value.empty :: rest => do
      let r ← responseTryFrom Value.empty
      let b ← iterItems rest
      Except.ok (r :: b)
  | Value.text s :: rest => do
      let r ← responseTryFrom (Value.text s)
      let b ← iterItems rest
      Except.ok (r :: b)
  | Value.map m :: rest => do
      let r ← responseTryFrom (Value.map m)
      let b ← iterItems rest
      Except.ok (r :: b)

/-- The function `iter_response_items` on one child value of the multistatus map
(`multistatus.rs` lines 31-48): a list is flattened, a map is decoded as one
response, anything else contributes nothing. -/
def iterResponseItems : Value → Except DErr (List Response)
  | Value.list items => iterItems items
  | Value.map m => (responseTryFrom (Value.map m)).map (fun r => [r])
  | _ => Except.ok []

/-- The response-collection loop of `Multistatus::try_from`
(`multistatus.rs` lines 50-53): every entry of the map contributes, with its
key ignored. -/
def responsesFromEntries : ValueMap → Except DErr (List Response)
  | [] => Except.ok []
  | (_, v) :: rest => do
      let rs ← iterResponseItems v
      let more ← responsesFromEntries rest
      Except.ok (rs ++ more)

/-- Decoding `TryFrom<&Value> for Multistatus` (`multistatus.rs` lines 25-60). -/
def multistatusTryFrom (v : Value) : Except DErr Multistatus := do
  let m ← Value.toMap v
  let response ← responsesFromEntries m
  let rd ← rdTryFromMap m
  Except.ok { response := response, responsedescription := rd }

/- ## Encoding back to values -/

/-- The optional `responsedescription` entry of an encoded map. -/
def rdEntries : Option String → ValueMap
  | some rd => [(davQ "responsedescription", Value.text rd)]
  | none => []

/-- Modelled from the spec: encodes a `propstat` block as a map with `prop`
and `status` children plus the optional description (spec section 3). -/
def propstatToValue (p : Propstat) : Value :=
  Value.map ([(davQ "prop", Value.map p.prop.map),
              (davQ "status", Value.text (statusToText p.status))] ++
             rdEntries p.responsedescription)

/-- Modelled from the spec: encodes a `response` element; repeated `propstat`
children are aggregated into a list value in document order
(spec section 3). -/
def responseToValue : Response → Value
  | Response.propstat href ps rd =>
      Value.map ([(davQ "href", Value.text href.s),
                  (davQ "propstat", Value.list (ps.map propstatToValue))] ++
                 rdEntries rd)
  | Response.status href st rd =>
      Value.map ([(davQ "href", Value.text href.s),
                  (davQ "status", Value.text (statusToText st))] ++
                 rdEntries rd)

/-- Encoding `From<Multistatus> for Value` (`multistatus.rs` lines 62-83): a fresh map
receives the response list (an empty value when there are no responses, a
list value otherwise) and then the optional description. -/
def multistatusToValue (ms : Multistatus) : Value :=
  let m : ValueMap := []
  let m := ValueMap.insert (davQ "response")
    (match ms.response with
     | [] => Value.empty
     | rs => Value.list (rs.map responseToValue)) m
  let m :=
    match ms.responsedescription with
    | some rd => ValueMap.insert (davQ "responsedescription") (Value.text rd) m
    | none => m
  Value.map m

/- ## The response-to-file reducer (`src/parser.rs`) -/

/-- Whether a path string ends with the path separator, mirroring
`file_name.ends_with('/')`. -/
def endsWithSlash (s : String) : Bool := s.data.getLast? == some '/'

/-- One record of the reducer loop (`parser.rs` lines 85-109): metadata
fields are filled only from successfully decoded properties, everything else
stays at its default; classification is directory when the href ends in `/`
or when the local machine's filesystem reports the path as an existing
directory (`path.is_dir()`), the latter embedded as the `isDir` oracle. -/
def buildRecord (isDir : String → Bool) (path : String) (props : Properties) :
    File :=
  { path := path
    metadata :=
      { created :=
          match props.creationdate with
          | some (some (Except.ok d)) => some d.date
          | _ => none
        modified :=
          match props.getlastmodified with
          | some (some (Except.ok d)) => some d.date
          | _ => none
        size :=
          match props.getcontentlength with
          | some (some (Except.ok n)) => n.length
          | _ => 0
        file_type :=
          if endsWithSlash path || isDir path then FileType.Directory
          else FileType.File } }

/-- The collection loop of `parse_propfind` (`parser.rs` lines 65-113): each
propstat-bearing response contributes one record per propstat block, with the
propstat statuses never consulted; status-only responses are skipped. -/
def reduceMultistatus (isDir : String → Bool) (ms : Multistatus) : List File :=
  (ms.response.map (fun r =>
    match r with
    | Response.propstat href propstats _ =>
        propstats.map (fun x => buildRecord isDir href.s x.prop)
    | _ => [])).flatten

/-- The tail of `parse_propfind` after the XML parse: a decode failure is a protocol
error, otherwise the reducer runs (`parser.rs` lines 60-113). -/
def parsePropfindValue (isDir : String → Bool) (v : Value) :
    Except RemoteErrorType (List File) :=
  match multistatusTryFrom v with
  | Except.error _ => Except.error RemoteErrorType.ProtocolError
  | Except.ok ms => Except.ok (reduceMultistatus isDir ms)

/-- The reducer `ResponseParser::parse_propfind` (`parser.rs` lines 60-114): the external
black-box XML tokenizer is the explicit parameter `parseXml`; its failure and
a multistatus-shape failure are both protocol errors. -/
def parse_propfind (parseXml : List Nat → Except DErr Value)
    (isDir : String → Bool) (bytes : List Nat) :
    Except RemoteErrorType (List File) :=
  match parseXml bytes with
  | Except.error _ => Except.error RemoteErrorType.ProtocolError
  | Except.ok v => parsePropfindValue isDir v

/-- Whether a transport status code is a success, mirroring
`reqwest::StatusCode::is_success` (2xx). -/
def isSuccess (code : Nat) : Bool := 200 ≤ code && code < 300

/-- The failure mapping of `ResponseParser::status` (`parser.rs` lines
27-32). -/
def ResponseParser.statusError (code : Nat) : RemoteErrorType :=
  match code with
  | 401 => RemoteErrorType.AuthenticationFailed
  | 403 => RemoteErrorType.CouldNotOpenFile
  | 400 | 404 => RemoteErrorType.NoSuchFileOrDirectory
  | _ => RemoteErrorType.ProtocolError

/-- The interpreter `ResponseParser::status` (`parser.rs` lines 23-34): success for 2xx,
otherwise the mapped error. -/
def ResponseParser.status (code : Nat) : Except RemoteErrorType Unit :=
  if isSuccess code then Except.ok ()
  else Except.error (ResponseParser.statusError code)

/-- The entry point `ResponseParser::files` (`parser.rs` lines 36-54): a non-success outer
transport status short-circuits to the mapped error; only on success is the
body handed to `parse_propfind`. -/
def ResponseParser.files (parseXml : List Nat → Except DErr Value)
    (isDir : String → Bool) (code : Nat) (body : List Nat) :
    Except RemoteErrorType (List File) :=
  if isSuccess code then parse_propfind parseXml isDir body
  else Except.error (ResponseParser.statusError code)

/- ## The trait-adapter post-processing (`src/lib.rs`) -/

/-- The post-processing of `WebDAVFs::list_dir` (`lib.rs` lines 129-139) on
the outcome of `ResponseParser::files`: an error propagates; a non-empty
record list has its first record (the listed resource itself) removed; an
empty list becomes a no-such-file-or-directory error. -/
def list_dir (r : Except RemoteErrorType (List File)) :
    Except RemoteErrorType (List File) :=
  match r with
  | Except.error e => Except.error e
  | Except.ok files =>
      match files with
      | [] => Except.error RemoteErrorType.NoSuchFileOrDirectory
      | _ :: rest => Except.ok rest

/-- The post-processing of `WebDAVFs::stat` (`lib.rs` lines 151-154): an
error propagates; the first record of a non-empty list is the result; an
empty list is a no-such-file-or-directory error. -/
def stat (r : Except RemoteErrorType (List File)) :
    Except RemoteErrorType File :=
  match r with
  | Except.error e => Except.error e
  | Except.ok [] => Except.error RemoteErrorType.NoSuchFileOrDirectory
  | Except.ok (f :: _) => Except.ok f

/-- The method `WebDAVFs::exists` (`lib.rs` lines 161-164): `Ok(self.stat(path).is_ok())`
applied to the outcome of `stat`. -/
def webdavExists (statResult : Except RemoteErrorType File) :
    Except RemoteErrorType Bool :=
  Except.ok (match statResult with
             | Except.ok _ => true
             | Except.error _ => false)

/- ## Well-formedness of synthetic documents (for the round trip) -/

/-- A status line the core can render and re-parse: a space-free protocol
version and a 3-digit code. -/
def WFStatus (st : Status) : Prop :=
  ' ' ∉ st.version.data ∧ 100 ≤ st.code ∧ st.code ≤ 999

instance (st : Status) : Decidable (WFStatus st) := by
  unfold WFStatus; infer_instance

/-- Every status line reachable from a response is well-formed. -/
def WFResponse : Response → Prop
  | Response.propstat _ ps _ => ∀ p ∈ ps, WFStatus p.status
  | Response.status _ st _ => WFStatus st

instance : (r : Response) → Decidable (WFResponse r)
  | Response.propstat _ ps _ =>
      inferInstanceAs (Decidable (∀ p ∈ ps, WFStatus p.status))
  | Response.status _ st _ => inferInstanceAs (Decidable (WFStatus st))

/- ## Helper lemmas: tokenization -/

/-- Splitting always yields at least one token. -/
theorem splitSp_exists (l : List Char) : ∃ w ws, splitSp l = w :: ws := by
  induction l with
  | nil => exact ⟨[], [], rfl⟩
  | cons c rest ih =>
      obtain ⟨w, ws, hw⟩ := ih
      by_cases hc : c = ' '
      · exact ⟨[], splitSp rest, by simp [splitSp, hc]⟩
      · exact ⟨c :: w, ws, by simp [splitSp, hc, hw]⟩

/-- Peeling a head character off the first token commutes with `joinSp`. -/
theorem joinSp_cons_cons (c : Char) (w : List Char) (ws : List (List Char)) :
    joinSp ((c :: w) :: ws) = c :: joinSp (w :: ws) := by
  cases ws <;> simp [joinSp]

/-- Joining undoes splitting on any character list. -/
theorem joinSp_splitSp (l : List Char) : joinSp (splitSp l) = l := by
  induction l with
  | nil => rfl
  | cons c rest ih =>
      obtain ⟨w, ws, hw⟩ := splitSp_exists rest
      by_cases hc : c = ' '
      · rw [hc]
        simp only [splitSp, if_pos rfl]
        rw [hw] at ih ⊢
        simpa [joinSp] using ih
      · simp only [splitSp, if_neg hc, hw]
        rw [hw] at ih
        rw [joinSp_cons_cons, ih]

/-- Splitting a text that starts with a space-free token followed by a space
peels off exactly that token. -/
theorem splitSp_token (w l : List Char) (hw : ' ' ∉ w) :
    splitSp (w ++ ' ' :: l) = w :: splitSp l := by
  induction w with
  | nil => simp [splitSp]
  | cons c w' ih =>
      have hc : c ≠ ' ' := fun h => hw (h ▸ List.mem_cons_self c w')
      have hw' : ' ' ∉ w' := fun h => hw (List.mem_cons_of_mem c h)
      simp only [List.cons_append, splitSp, if_neg hc, List.append_eq]
      rw [ih hw']

/- ## Helper lemmas: status-code digits -/

/-- A digit character is never the space. -/
theorem digitChar_ne_space (d : Nat) (h : d ≤ 9) : digitChar d ≠ ' ' := by
  interval_cases d <;> decide

/-- A digit character is recognised as a digit. -/
theorem isDigitChar_digitChar (d : Nat) (h : d ≤ 9) :
    isDigitChar (digitChar d) = true := by
  interval_cases d <;> decide

/-- Printing and re-reading a digit is the identity. -/
theorem digitVal_digitChar (d : Nat) (h : d ≤ 9) :
    digitVal (digitChar d) = d := by
  interval_cases d <;> decide

/-- A printed 3-digit code contains no space. -/
theorem space_not_mem_print3 (n : Nat) (h : n ≤ 999) : ' ' ∉ print3 n := by
  have h1 := digitChar_ne_space (n / 100) (by omega)
  have h2 := digitChar_ne_space (n / 10 % 10) (by omega)
  have h3 := digitChar_ne_space (n % 10) (by omega)
  simp only [print3, List.mem_cons, List.not_mem_nil, or_false]
  rintro (h' | h' | h')
  · exact h1 h'.symm
  · exact h2 h'.symm
  · exact h3 h'.symm

/-- Re-parsing a printed 3-digit status code yields the code back. -/
theorem parse3_print3 (n : Nat) (h2 : 100 ≤ n) (h3 : n ≤ 999) :
    parse3 (print3 n) = some n := by
  have ha : n / 100 ≤ 9 := by omega
  have hb : n / 10 % 10 ≤ 9 := by omega
  have hc : n % 10 ≤ 9 := by omega
  simp only [print3, parse3, isDigitChar_digitChar _ ha, isDigitChar_digitChar _ hb,
    isDigitChar_digitChar _ hc, Bool.and_self, if_true,
    digitVal_digitChar _ ha, digitVal_digitChar _ hb, digitVal_digitChar _ hc]
  congr 1
  omega

/-- Re-parsing a rendered status line recovers the status, provided the
version is space-free and the code has three digits. -/
theorem statusFromText_statusToText (st : Status) (h : WFStatus st) :
    statusFromText (statusToText st) = Except.ok st := by
  obtain ⟨h1, h2, h3⟩ := h
  obtain ⟨r, rs, hsplit⟩ := splitSp_exists st.reason.data
  have hw1 : ' ' ∉ ('H' :: 'T' :: 'T' :: 'P' :: '/' :: st.version.data) := by
    intro hmem
    simp only [List.mem_cons] at hmem
    rcases hmem with h' | h' | h' | h' | h' | h'
    · exact absurd h' (by decide)
    · exact absurd h' (by decide)
    · exact absurd h' (by decide)
    · exact absurd h' (by decide)
    · exact absurd h' (by decide)
    · exact h1 h'
  have hw2 : ' ' ∉ print3 st.code := space_not_mem_print3 _ h3
  show (match splitSp (statusToText st).data with
    | t1 :: t2 :: r :: rs =>
        match parseHttpToken t1, parse3 t2 with
        | some ver, some n =>
            Except.ok { version := ⟨ver⟩, code := n, reason := ⟨joinSp (r :: rs)⟩ }
        | _, _ => Except.error DErr.badStatusLine
    | _ => Except.error DErr.badStatusLine) = Except.ok st
  have hdata : (statusToText st).data =
      ('H' :: 'T' :: 'T' :: 'P' :: '/' :: st.version.data) ++
        ' ' :: (print3 st.code ++ ' ' :: st.reason.data) := rfl
  rw [hdata, splitSp_token _ _ hw1, splitSp_token _ _ hw2, hsplit]
  show (match parseHttpToken ('H' :: 'T' :: 'T' :: 'P' :: '/' :: st.version.data),
      parse3 (print3 st.code) with
    | some ver, some n =>
        Except.ok { version := ⟨ver⟩, code := n, reason := ⟨joinSp (r :: rs)⟩ }
    | _, _ => Except.error DErr.badStatusLine) = Except.ok st
  rw [show parseHttpToken ('H' :: 'T' :: 'T' :: 'P' :: '/' :: st.version.data) =
    some st.version.data from rfl, parse3_print3 _ h2 h3]
  rw [← hsplit, joinSp_splitSp]

/- ## Helper lemmas: map lookup -/

/-- Lookup finds the head entry. -/
theorem ValueMap.lookup_cons_self (q : QName) (v : Value) (m : ValueMap) :
    ValueMap.lookup q ((q, v) :: m) = some v := by
  simp [ValueMap.lookup]

/-- Lookup skips a head entry with a different key. -/
theorem ValueMap.lookup_cons_ne (q k : QName) (v : Value) (m : ValueMap)
    (h : k ≠ q) : ValueMap.lookup q ((k, v) :: m) = ValueMap.lookup q m := by
  simp [ValueMap.lookup, h]

/- ## Round-trip lemmas for the typed elements -/

/-- Computation rule: binding a successful `Except` result. -/
theorem except_ok_bind (a : α) (f : α → Except ε β) :
    (Except.ok a >>= f) = f a := rfl

/-- Computation rule: binding a failed `Except` result. -/
theorem except_error_bind (e : ε) (f : α → Except ε β) :
    ((Except.error e : Except ε α) >>= f) = Except.error e := rfl

/-- Re-decoding an encoded `propstat` block recovers it, provided its status
line is well-formed. -/
theorem propstatTryFrom_propstatToValue (p : Propstat) (h : WFStatus p.status) :
    propstatTryFrom (propstatToValue p) = Except.ok p := by
  obtain ⟨prop, st, rd⟩ := p
  cases rd <;>
    simp [propstatTryFrom, propstatToValue, rdEntries, Value.toMap,
      ValueMap.lookup, davQ, propertiesTryFrom, rdTryFromMap,
      statusFromText_statusToText _ h, Except.map, except_ok_bind,
      except_error_bind]

/-- Re-decoding an encoded list of `propstat` blocks recovers the list. -/
theorem propstatListTryFrom_map (ps : List Propstat)
    (h : ∀ p ∈ ps, WFStatus p.status) :
    propstatListTryFrom (ps.map propstatToValue) = Except.ok ps := by
  induction ps with
  | nil => rfl
  | cons p rest ih =>
      simp only [List.map_cons, propstatListTryFrom,
        propstatTryFrom_propstatToValue p (h p (List.mem_cons_self p rest)),
        ih (fun q hq => h q (List.mem_cons_of_mem p hq))]
      rfl

/-- Re-decoding an encoded `response` element recovers it, provided its status
lines are well-formed. -/
theorem responseTryFrom_responseToValue (r : Response) (h : WFResponse r) :
    responseTryFrom (responseToValue r) = Except.ok r := by
  cases r with
  | propstat href ps rd =>
      cases rd <;>
        simp [responseTryFrom, responseToValue, rdEntries, Value.toMap,
          ValueMap.lookup, davQ, rdTryFromMap, decodePropstatMulti,
          propstatListTryFrom_map ps h, except_ok_bind, except_error_bind]
  | status href st rd =>
      cases rd <;>
        simp [responseTryFrom, responseToValue, rdEntries, Value.toMap,
          ValueMap.lookup, davQ, rdTryFromMap,
          statusFromText_statusToText st h, except_ok_bind, except_error_bind]

/-- Walking an encoded response list recovers the list. -/
theorem iterItems_map_responseToValue (rs : List Response)
    (h : ∀ r ∈ rs, WFResponse r) :
    iterItems (rs.map responseToValue) = Except.ok rs := by
  induction rs with
  | nil => simp [iterItems]
  | cons r rest ih =>
      have hr := responseTryFrom_responseToValue r (h r (List.mem_cons_self r rest))
      have ih' := ih (fun q hq => h q (List.mem_cons_of_mem r hq))
      cases r <;>
        (simp only [List.map_cons, responseToValue, List.cons_append,
           List.nil_append] at hr ⊢
         simp [iterItems, hr, ih', except_ok_bind])

/-- All status lines reachable from a multistatus are well-formed. -/
def WFMultistatus (ms : Multistatus) : Prop :=
  ∀ r ∈ ms.response, WFResponse r

instance (ms : Multistatus) : Decidable (WFMultistatus ms) := by
  unfold WFMultistatus; infer_instance

/-- Re-decoding an encoded multistatus document recovers it, provided the
status lines are well-formed. -/
theorem multistatus_roundtrip (ms : Multistatus) (h : WFMultistatus ms) :
    multistatusTryFrom (multistatusToValue ms) = Except.ok ms := by
  obtain ⟨rs, rd⟩ := ms
  have h' : ∀ r ∈ rs, WFResponse r := h
  cases rd with
  | none =>
      cases rs with
      | nil => rfl
      | cons r rest =>
          have hit := iterItems_map_responseToValue (r :: rest) h'
          simp only [List.map_cons] at hit
          simp [multistatusTryFrom, multistatusToValue, ValueMap.insert,
            responsesFromEntries, iterResponseItems, hit, rdTryFromMap,
            ValueMap.lookup, Value.toMap, davQ, except_ok_bind]
  | some d =>
      cases rs with
      | nil =>
          simp [multistatusTryFrom, multistatusToValue, ValueMap.insert,
            responsesFromEntries, iterResponseItems, rdTryFromMap,
            ValueMap.lookup, Value.toMap, davQ, except_ok_bind]
      | cons r rest =>
          have hit := iterItems_map_responseToValue (r :: rest) h'
          simp only [List.map_cons] at hit
          simp [multistatusTryFrom, multistatusToValue, ValueMap.insert,
            responsesFromEntries, iterResponseItems, hit, rdTryFromMap,
            ValueMap.lookup, Value.toMap, davQ, except_ok_bind]

/- ## Claim theorems -/

/-- The catch-all arm of the status mapping: any code other than 400, 401,
403, 404 maps to the generic protocol error. -/
theorem statusError_other (code : Nat) (h1 : code ≠ 401) (h2 : code ≠ 403)
    (h3 : code ≠ 400) (h4 : code ≠ 404) :
    ResponseParser.statusError code = RemoteErrorType.ProtocolError := by
  unfold ResponseParser.statusError
  split
  · exact absurd rfl h1
  · exact absurd rfl h2
  · exact absurd rfl h3
  · exact absurd rfl h4
  · rfl

/-- C5: the status interpreter is a total, deterministic function of the
numeric status code: every 2xx code yields success; 401 yields
authentication-failed; 403 yields access-denied (could-not-open); 400 and 404
yield not-found; every other non-2xx code yields a generic protocol error. -/
theorem c5_status_interpreter (code : Nat) :
    (200 ≤ code ∧ code < 300 → ResponseParser.status code = Except.ok ()) ∧
    (¬(200 ≤ code ∧ code < 300) →
      ResponseParser.status code =
        Except.error
          (if code = 401 then RemoteErrorType.AuthenticationFailed
           else if code = 403 then RemoteErrorType.CouldNotOpenFile
           else if code = 400 ∨ code = 404 then
             RemoteErrorType.NoSuchFileOrDirectory
           else RemoteErrorType.ProtocolError)) := by
  constructor
  · intro h
    have hs : isSuccess code = true := by
      simp only [isSuccess, Bool.and_eq_true, decide_eq_true_eq]
      omega
    simp [ResponseParser.status, hs]
  · intro h
    have hs : isSuccess code = false := by
      simp only [isSuccess, Bool.and_eq_false_iff, decide_eq_false_iff_not]
      omega
    simp only [ResponseParser.status, hs, Bool.false_eq_true, if_false]
    congr 1
    by_cases h1 : code = 401
    · subst h1; rfl
    by_cases h2 : code = 403
    · subst h2; rfl
    by_cases h3 : code = 400
    · subst h3; rfl
    by_cases h4 : code = 404
    · subst h4; rfl
    rw [statusError_other code h1 h2 h3 h4]
    simp [h1, h2, h3, h4]

/-- Witness for C5 at concrete codes from every arm of the mapping. -/
theorem c5_witness :
    ResponseParser.status 204 = Except.ok () ∧
    ResponseParser.status 401 =
      Except.error RemoteErrorType.AuthenticationFailed ∧
    ResponseParser.status 403 = Except.error RemoteErrorType.CouldNotOpenFile ∧
    ResponseParser.status 400 =
      Except.error RemoteErrorType.NoSuchFileOrDirectory ∧
    ResponseParser.status 404 =
      Except.error RemoteErrorType.NoSuchFileOrDirectory ∧
    ResponseParser.status 500 = Except.error RemoteErrorType.ProtocolError :=
  ⟨(c5_status_interpreter 204).1 (by decide),
   (c5_status_interpreter 401).2 (by decide),
   (c5_status_interpreter 403).2 (by decide),
   (c5_status_interpreter 400).2 (by decide),
   (c5_status_interpreter 404).2 (by decide),
   (c5_status_interpreter 500).2 (by decide)⟩

/-- C6: a non-success outer transport status makes `ResponseParser::files`
return the mapped error without consulting the body: the outcome is the
status-mapped error and is identical for any two bodies. -/
theorem c6_outer_status_short_circuits
    (parseXml : List Nat → Except DErr Value) (isDir : String → Bool)
    (code : Nat) (body body' : List Nat) (h : isSuccess code = false) :
    ResponseParser.files parseXml isDir code body =
      Except.error (ResponseParser.statusError code) ∧
    ResponseParser.files parseXml isDir code body =
      ResponseParser.files parseXml isDir code body' := by
  constructor <;> simp [ResponseParser.files, h]

/-- Witness for C6: an outer 401 with a non-empty body yields
authentication-failed even though the body would decode. -/
theorem c6_witness :
    ResponseParser.files (fun _ => Except.error DErr.notAMap)
        (fun _ => false) 401 [60, 63] =
      Except.error RemoteErrorType.AuthenticationFailed :=
  (c6_outer_status_short_circuits (fun _ => Except.error DErr.notAMap)
    (fun _ => false) 401 [60, 63] [] (by decide)).1

/-- C7: record construction is total on every prop block (the record is
always produced, with the given path), and the containment is per-property:
each individual property that is absent, present-but-empty, or whose content
fails to decode leaves its own metadata field at the default (no timestamp,
size 0), independently of the states of the other properties — so a mixed
block keeps its successfully decoded fields while the failed or missing ones
default. -/
theorem c7_property_defaults (isDir : String → Bool) (path : String)
    (props : Properties) :
    (buildRecord isDir path props).path = path ∧
    ((props.creationdate = none ∨ props.creationdate = some none ∨
        ∃ e, props.creationdate = some (some (Except.error e))) →
      (buildRecord isDir path props).metadata.created = none) ∧
    ((props.getlastmodified = none ∨ props.getlastmodified = some none ∨
        ∃ e, props.getlastmodified = some (some (Except.error e))) →
      (buildRecord isDir path props).metadata.modified = none) ∧
    ((props.getcontentlength = none ∨ props.getcontentlength = some none ∨
        ∃ e, props.getcontentlength = some (some (Except.error e))) →
      (buildRecord isDir path props).metadata.size = 0) := by
  refine ⟨rfl, ?_, ?_, ?_⟩
  · rintro (h | h | ⟨e, h⟩) <;> simp [buildRecord, h]
  · rintro (h | h | ⟨e, h⟩) <;> simp [buildRecord, h]
  · rintro (h | h | ⟨e, h⟩) <;> simp [buildRecord, h]

/-- The mixed prop block of the C7 witness: `getcontentlength` decodes
successfully to 486, `getlastmodified` is present but fails to decode (its
value is a map, not text), and `creationdate` is absent altogether. -/
def c7MixedProps : Properties :=
  ⟨[(davQ "getcontentlength", Value.text "486"),
    (davQ "getlastmodified", Value.map [])]⟩

/-- Witness for C7 at the mixed prop block: the record is produced, the
absent `creationdate` and the decode-failed `getlastmodified` leave their
fields at the default, while the decoded `getcontentlength` still populates
the size — partial metadata rather than a dropped or failed record. -/
theorem c7_witness :
    (buildRecord (fun _ => false) "/x" c7MixedProps).path = "/x" ∧
    (buildRecord (fun _ => false) "/x" c7MixedProps).metadata.created = none ∧
    (buildRecord (fun _ => false) "/x" c7MixedProps).metadata.modified = none ∧
    (buildRecord (fun _ => false) "/x" c7MixedProps).metadata.size = 486 :=
  ⟨(c7_property_defaults (fun _ => false) "/x" c7MixedProps).1,
   (c7_property_defaults (fun _ => false) "/x" c7MixedProps).2.1 (Or.inl rfl),
   (c7_property_defaults (fun _ => false) "/x" c7MixedProps).2.2.1
     (Or.inr (Or.inr ⟨DErr.notText, rfl⟩)),
   rfl⟩

/-- C9: on a successfully decoded non-empty record list, `list_dir` returns
exactly that list minus its first record, order preserved; on an empty decoded
list it returns a no-such-file-or-directory error. -/
theorem c9_list_dir (files : List File) (h : files ≠ []) :
    list_dir (Except.ok files) = Except.ok files.tail ∧
    list_dir (Except.ok ([] : List File)) =
      Except.error RemoteErrorType.NoSuchFileOrDirectory := by
  refine ⟨?_, rfl⟩
  cases files with
  | nil => exact absurd rfl h
  | cons f rest => rfl

/-- Witness for C9 at a concrete two-record listing. -/
theorem c9_witness :
    list_dir (Except.ok [⟨"/d/", Metadata.default⟩,
        ⟨"/d/a.txt", Metadata.default⟩]) =
      Except.ok [⟨"/d/a.txt", Metadata.default⟩] ∧
    list_dir (Except.ok ([] : List File)) =
      Except.error RemoteErrorType.NoSuchFileOrDirectory :=
  c9_list_dir [⟨"/d/", Metadata.default⟩, ⟨"/d/a.txt", Metadata.default⟩]
    (by simp)

/-- C10: `WebDAVFs::exists` never returns an error: it answers `Ok(true)`
exactly when the underlying `stat` succeeded and `Ok(false)` on any `stat`
failure whatsoever, collapsing transport failures into "does not exist". -/
theorem c10_exists_never_errors (r : Except RemoteErrorType File) :
    (∃ b, webdavExists r = Except.ok b) ∧
    (∀ f, r = Except.ok f → webdavExists r = Except.ok true) ∧
    (∀ e, r = Except.error e → webdavExists r = Except.ok false) := by
  refine ⟨?_, ?_, ?_⟩
  · cases r <;> exact ⟨_, rfl⟩
  · rintro f rfl; rfl
  · rintro e rfl; rfl

/-- Witness for C10: an authentication failure from `stat` is reported as
"does not exist". -/
theorem c10_witness :
    webdavExists (Except.error RemoteErrorType.AuthenticationFailed) =
      Except.ok false :=
  (c10_exists_never_errors
    (Except.error RemoteErrorType.AuthenticationFailed)).2.2
    RemoteErrorType.AuthenticationFailed rfl

/-- C1 (claim evaluated on the code): the reducer consults the local
filesystem when classifying. On a multistatus whose single href is `/a`
(no trailing separator, successful propstat, empty prop), run on a machine
where the local path `/a` is an existing directory, the produced record is
classified Directory, where the claim requires File regardless of local
filesystem state. -/
theorem c1_local_state_changes_classification :
    parsePropfindValue (fun p => p == "/a")
      (Value.map [(davQ "response", Value.map [
        (davQ "href", Value.text "/a"),
        (davQ "propstat", Value.map [
          (davQ "prop", Value.map []),
          (davQ "status", Value.text "HTTP/1.1 200 OK")])])]) =
      Except.ok [⟨"/a", ⟨none, none, 0, FileType.Directory⟩⟩] := rfl

/-- C4 (claim evaluated on the code): two runs of `parse_propfind` on the same
byte input (with the same black-box XML parse) disagree when the local
filesystem state changes between the runs: with no local directory `/a` the
record is a File, with `/a` locally a directory it is a Directory. -/
theorem c4_two_runs_differ :
    parse_propfind
      (fun _ => Except.ok (Value.map [(davQ "response", Value.map [
        (davQ "href", Value.text "/a"),
        (davQ "propstat", Value.map [
          (davQ "prop", Value.map []),
          (davQ "status", Value.text "HTTP/1.1 200 OK")])])]))
      (fun _ => false) [0] =
      Except.ok [⟨"/a", ⟨none, none, 0, FileType.File⟩⟩] ∧
    parse_propfind
      (fun _ => Except.ok (Value.map [(davQ "response", Value.map [
        (davQ "href", Value.text "/a"),
        (davQ "propstat", Value.map [
          (davQ "prop", Value.map []),
          (davQ "status", Value.text "HTTP/1.1 200 OK")])])]))
      (fun p => p == "/a") [0] =
      Except.ok [⟨"/a", ⟨none, none, 0, FileType.Directory⟩⟩] :=
  ⟨rfl, rfl⟩

/-- Counterexample to C2 as stated: a decoded multistatus whose single
response carries exactly one propstat block with the failing status
`HTTP/1.1 404 Not Found` still produces one file record for that path (with
default metadata); the claim requires no record at all. -/
theorem c2_counterexample :
    parsePropfindValue (fun _ => false)
      (Value.map [(davQ "response", Value.map [
        (davQ "href", Value.text "/x"),
        (davQ "propstat", Value.map [
          (davQ "prop", Value.map []),
          (davQ "status", Value.text "HTTP/1.1 404 Not Found")])])]) =
      Except.ok [⟨"/x", ⟨none, none, 0, FileType.File⟩⟩] := rfl

/-- The number of records a single response contributes to the reducer:
one per propstat block, zero for a status-only response — independent of any
propstat status. -/
def responseRecordCount : Response → Nat
  | Response.propstat _ ps _ => ps.length
  | Response.status _ _ _ => 0

/-- C2 amended: the reducer produces exactly one record per propstat block of
each propstat-shaped response, regardless of the statuses carried by those
propstat blocks (the statuses are never consulted); in particular a response
whose only propstat carries a failing status still contributes a record. -/
theorem c2_amended_record_count (isDir : String → Bool) (ms : Multistatus) :
    (reduceMultistatus isDir ms).length =
      (ms.response.map responseRecordCount).sum := by
  unfold reduceMultistatus
  rw [List.length_flatten, List.map_map]
  congr 1
  refine List.map_congr_left (fun r _ => ?_)
  cases r <;> simp [responseRecordCount]

/-- Counterexample to C3 as stated: a map child stored under the foreign
qualified name `(urn:x, y)` — not Response's fixed `(DAV:, response)` name —
is nevertheless decoded into a Response entry by `Multistatus::try_from`,
because the collection loop ignores the keys of the map. -/
theorem c3_counterexample :
    multistatusTryFrom (Value.map [(⟨"urn:x", "y"⟩, Value.map [
        (davQ "href", Value.text "/a"),
        (davQ "status", Value.text "HTTP/1.1 200 OK")])]) =
      Except.ok ⟨[Response.status ⟨"/a"⟩ ⟨"1.1", 200, "OK"⟩ none], none⟩ := rfl

/-- C3 amended: the response list of a decoded `Multistatus` is collected
from the values of all map children with their qualified names ignored: two
maps with the same value sequence under arbitrary (possibly different) keys
decode to the same response list. -/
theorem c3_amended_keys_ignored (m₁ m₂ : ValueMap)
    (h : m₁.map Prod.snd = m₂.map Prod.snd) :
    responsesFromEntries m₁ = responsesFromEntries m₂ := by
  induction m₁ generalizing m₂ with
  | nil =>
      cases m₂ with
      | nil => rfl
      | cons e rest => simp at h
  | cons e rest ih =>
      cases m₂ with
      | nil => simp at h
      | cons e' rest' =>
          obtain ⟨p, v⟩ := e
          obtain ⟨p', v'⟩ := e'
          simp only [List.map_cons, List.cons.injEq] at h
          obtain ⟨hv, hrest⟩ := h
          subst hv
          simp [responsesFromEntries, ih rest' hrest]

/-- Witness for the amended C3: the same response-shaped value decodes
identically under the proper `DAV: response` key and under a foreign key. -/
theorem c3_amended_witness :
    responsesFromEntries [(davQ "response", Value.map [
        (davQ "href", Value.text "/a"),
        (davQ "status", Value.text "HTTP/1.1 200 OK")])] =
      responsesFromEntries [(⟨"urn:x", "y"⟩, Value.map [
        (davQ "href", Value.text "/a"),
        (davQ "status", Value.text "HTTP/1.1 200 OK")])] :=
  c3_amended_keys_ignored _ _ rfl

/-- C8: converting a `Multistatus` built from the shapes this core defines to
a `Value` and decoding it back succeeds and yields a structurally equal
`Multistatus`, with equal Response, Propstat and Status components in the same
order; well-formedness asks only that every reachable status line have a
space-free protocol version and a 3-digit code, which every status line this
core defines has. -/
theorem c8_multistatus_roundtrip (ms : Multistatus) (h : WFMultistatus ms) :
    multistatusTryFrom (multistatusToValue ms) = Except.ok ms :=
  multistatus_roundtrip ms h

/-- A synthetic multistatus exercising both response shapes, repeated
propstat blocks, mixed statuses and a response description. -/
def sampleMultistatus : Multistatus :=
  ⟨[Response.propstat ⟨"/d/"⟩
      [⟨⟨[(davQ "getcontentlength", Value.text "486")]⟩, ⟨"1.1", 200, "OK"⟩,
         none⟩,
       ⟨⟨[]⟩, ⟨"1.1", 404, "Not Found"⟩, some "missing"⟩]
      (some "partial"),
    Response.status ⟨"/d/gone"⟩ ⟨"1.1", 507, "Insufficient Storage"⟩ none],
   some "done"⟩

/-- Witness for C8 at `sampleMultistatus`. -/
theorem c8_witness :
    WFMultistatus sampleMultistatus ∧
    multistatusTryFrom (multistatusToValue sampleMultistatus) =
      Except.ok sampleMultistatus :=
  ⟨by decide, c8_multistatus_roundtrip sampleMultistatus (by decide)⟩
